import Mathlib

/-!
Verification of the hand-gesture pipeline of the web-os repository.

The development shallowly embeds three source components:

* `InputAbstractionLayer` (gesture classifier): per-hand state, palm-center
  kinematics, the heuristic gesture cascade and the confidence/hold-time
  emission gate (`processHandGestures`, `detectGesture`).
* `GestureMapper`: the mapping table, the three default policies
  (confidence, rate limit, context) and `processGesture`.
* `WindowManager`: the gesture-driven drag session (`handleDragGesture`,
  `updateWindowPosition`).

Numbers are modelled by `Rat` (the source uses JS numbers; every claim here
is about order comparisons and affine arithmetic, which agree).  The source
compares Euclidean distances against constants; we compare squared distances
against squared constants, which is equivalent for non-negative radicands.
`Math.random`-generated identity strings are modelled by an injectable
fresh-id supply (a `Nat` counter): each new identity receives an id distinct
from all previously issued ones.  JS `Map` is modelled by an insertion-ordered
association list with in-place update (`alistInsert`).
-/

namespace WebOS

/-- 2-D vector with rational coordinates. -/
structure Vec2 where
  x : Rat
  y : Rat
deriving DecidableEq, Repr

/-- One tracked anatomical point (source type `HandLandmark`). -/
structure HandLandmark where
  x : Rat
  y : Rat
  z : Rat
deriving DecidableEq, Repr, Inhabited

/-- One per-hand observation for one frame (source type `HandTrackingResult`). -/
structure HandTrackingResult where
  landmarks : List HandLandmark
  handedness : String
  confidence : Rat
  timestamp : Int
deriving DecidableEq, Repr

/-- The gesture vocabulary that the classifier can actually produce
(source type `GestureType`, restricted to the constructors used). -/
inductive GestureType where
  | open_palm
  | closed_fist
  | thumbs_up
  | pinch
  | push_forward
  | swipe_left
  | swipe_right
  | two_finger_spread
  | two_finger_pinch
deriving DecidableEq, Repr

/-- Classified gesture event (source type `GestureEvent`).  The pinch
`data.distance` payload is carried as the squared distance. -/
structure GestureEvent where
  id : Option Nat
  type : GestureType
  confidence : Rat
  normalizedPosition : Vec2
  handedness : String
  timestamp : Int
  dataDistSq : Option Rat
deriving DecidableEq, Repr

/-- Per-hand classifier state (source interface `GestureState`). -/
structure GestureState where
  lastGesture : Option GestureType
  gestureStartTime : Int
  gestureId : Option Nat
  confidence : Rat
  position : Vec2
  velocity : Vec2
  previousPosition : Vec2
deriving DecidableEq, Repr

/-- The zero-initialised state created on first sighting of a hand key. -/
def initialGestureState : GestureState :=
  ⟨none, 0, none, 0, ⟨0, 0⟩, ⟨0, 0⟩, ⟨0, 0⟩⟩

/-- Classifier configuration (fields of `InputAbstractionLayer`). -/
structure IALConfig where
  smoothingFactor : Rat := 6/10
  confidenceThreshold : Rat := 8/10
  gestureHoldTime : Int := 150
deriving DecidableEq, Repr

/-- The default configuration of a freshly constructed layer. -/
def defaultIALConfig : IALConfig := {}

/-- Insertion-ordered association-list lookup (JS `Map.get`). -/
def alistLookup {κ α : Type} [DecidableEq κ] : List (κ × α) → κ → Option α
  | [], _ => none
  | (k, v) :: rest, key => if k = key then some v else alistLookup rest key

/-- Insertion-ordered association-list update (JS `Map.set`): replaces in
place when the key is present, appends otherwise. -/
def alistInsert {κ α : Type} [DecidableEq κ] : List (κ × α) → κ → α → List (κ × α)
  | [], key, v => [(key, v)]
  | (k, w) :: rest, key, v =>
      if k = key then (key, v) :: rest else (k, w) :: alistInsert rest key v

/-- Landmark access `landmarks[i]`; total via a default, used only at
indices `< 21` on lists the caller has length-checked. -/
def lmAt (lm : List HandLandmark) (i : Nat) : HandLandmark :=
  lm.getD i default

/-- Fingertip landmark indices (thumb, index, middle, ring, pinky). -/
def fingerTips : List Nat := [4, 8, 12, 16, 20]

/-- PIP-joint landmark indices for the same fingers. -/
def fingerPips : List Nat := [3, 6, 10, 14, 18]

/-- Per-finger extension flags: the thumb counts as extended when its tip is
farther right than its PIP joint (`tip.x > pip.x`); every other finger when
its tip is above its PIP joint (`tip.y < pip.y`). -/
def fingerExtensions (lm : List HandLandmark) : List Nat :=
  (List.range 5).map (fun i =>
    let tip := lmAt lm (fingerTips.getD i 0)
    let pip := lmAt lm (fingerPips.getD i 0)
    if i = 0 then (if tip.x > pip.x then 1 else 0)
    else (if tip.y < pip.y then 1 else 0))

/-- Squared planar distance between two landmarks. -/
def distSq (a b : HandLandmark) : Rat :=
  (a.x - b.x) ^ 2 + (a.y - b.y) ^ 2

/-- Result of the heuristic cascade: gesture type, detection confidence and
the optional pinch payload (squared thumb–index distance). -/
structure DetectedGesture where
  type : GestureType
  confidence : Rat
  dataDistSq : Option Rat
deriving DecidableEq, Repr

/-- The ordered heuristic cascade of `detectGesture`: first rule that
matches wins.  Every distance comparison of the source against a constant
is rendered on squares. -/
def detectGesture (lm : List HandLandmark) (velocity : Vec2) : Option DetectedGesture :=
  let exts := fingerExtensions lm
  let extendedFingers := exts.sum
  if extendedFingers ≥ 4 then
    some ⟨.open_palm, 9/10, none⟩
  else if extendedFingers = 0 then
    some ⟨.closed_fist, 9/10, none⟩
  else if extendedFingers = 1 ∧ exts.getD 0 0 = 1 then
    some ⟨.thumbs_up, 85/100, none⟩
  else
    let pinchSq := distSq (lmAt lm 4) (lmAt lm 8)
    if pinchSq < 1/400 ∧ exts.getD 0 0 = 1 ∧ exts.getD 1 0 = 1 then
      some ⟨.pinch, 9/10, some pinchSq⟩
    else if (lmAt lm 5).z < -(1/10) ∧ exts.getD 1 0 = 1 then
      some ⟨.push_forward, 8/10, none⟩
    else if |velocity.x| > 1/50 then
      (if velocity.x > 0 then some ⟨.swipe_right, 8/10, none⟩
       else some ⟨.swipe_left, 8/10, none⟩)
    else if extendedFingers = 2 ∧ exts.getD 1 0 = 1 ∧ exts.getD 2 0 = 1 then
      (if distSq (lmAt lm 8) (lmAt lm 12) > 4/625 then
        some ⟨.two_finger_spread, 8/10, none⟩
       else some ⟨.two_finger_pinch, 8/10, none⟩)
    else
      none

/-- Palm center: midpoint of landmark 0 (wrist) and landmark 9 (middle MCP). -/
def palmCenter (lm : List HandLandmark) : Vec2 :=
  ⟨((lmAt lm 0).x + (lmAt lm 9).x) / 2, ((lmAt lm 0).y + (lmAt lm 9).y) / 2⟩

/-- The kinematic update of `processHandGestures`, in source order:
velocity is taken against the incoming `previousPosition`, then
`previousPosition` captures the incoming (pre-smoothing) `position`, then the
position is exponentially smoothed toward the palm center. -/
def kinUpdate (cfg : IALConfig) (pc : Vec2) (s : GestureState) : GestureState :=
  { s with
    velocity := ⟨pc.x - s.previousPosition.x, pc.y - s.previousPosition.y⟩
    previousPosition := s.position
    position :=
      ⟨s.position.x * cfg.smoothingFactor + pc.x * (1 - cfg.smoothingFactor),
       s.position.y * cfg.smoothingFactor + pc.y * (1 - cfg.smoothingFactor)⟩ }

/-- Result of processing one hand for one frame: the new per-hand state, the
emitted event (if any) and the updated fresh-id counter. -/
structure StepResult where
  state : GestureState
  event : Option GestureEvent
  fresh : Nat
deriving DecidableEq, Repr

/-- Identity/confidence update and emission gate of `processHandGestures`:
a changed classification starts a new identity (fresh id, start time `now`,
confidence reset to the detection confidence); a continuing one updates
confidence by EMA; the event is emitted iff the updated confidence reaches
the threshold and the identity has been held for `gestureHoldTime`.  A frame
with no detected gesture resets `lastGesture`, `gestureId` and `confidence`. -/
def identityUpdate (cfg : IALConfig) (now : Int) (fresh : Nat)
    (result : HandTrackingResult) (det : Option DetectedGesture)
    (base : GestureState) : StepResult :=
  match det with
  | some d =>
      let cont := base.lastGesture = some d.type
      let s1 : GestureState :=
        if cont then
          { base with confidence := base.confidence * (8/10) + d.confidence * (2/10) }
        else
          { base with lastGesture := some d.type, gestureStartTime := now,
                      gestureId := some fresh, confidence := d.confidence }
      let ev : Option GestureEvent :=
        if s1.confidence ≥ cfg.confidenceThreshold ∧
            now - s1.gestureStartTime ≥ cfg.gestureHoldTime then
          some ⟨s1.gestureId, d.type, s1.confidence, s1.position,
                result.handedness, result.timestamp, d.dataDistSq⟩
        else none
      ⟨s1, ev, if cont then fresh else fresh + 1⟩
  | none =>
      ⟨{ base with lastGesture := none, gestureId := none, confidence := 0 }, none, fresh⟩

/-- Full per-hand processing of one frame (the body of `processHandGestures`
after the landmark-count guard). -/
def stepHand (cfg : IALConfig) (now : Int) (fresh : Nat)
    (result : HandTrackingResult) (s : GestureState) : StepResult :=
  let base := kinUpdate cfg (palmCenter result.landmarks) s
  identityUpdate cfg now fresh result (detectGesture result.landmarks base.velocity) base

/-- The classifier's per-hand state map, keyed by handedness label. -/
abbrev StateMap := List (String × GestureState)

/-- Result of `processHandGestures` on the whole layer state. -/
structure ProcResult where
  states : StateMap
  event : Option GestureEvent
  fresh : Nat
deriving DecidableEq, Repr

/-- `InputAbstractionLayer.processHandGestures`: hands with fewer than 21
landmarks are ignored entirely; otherwise the per-hand state is fetched (or
lazily created), stepped, and stored back. -/
def processHandGestures (cfg : IALConfig) (now : Int) (fresh : Nat)
    (result : HandTrackingResult) (states : StateMap) : ProcResult :=
  if result.landmarks.length < 21 then ⟨states, none, fresh⟩
  else
    let s := (alistLookup states result.handedness).getD initialGestureState
    let r := stepHand cfg now fresh result s
    ⟨alistInsert states result.handedness r.state, r.event, r.fresh⟩

/-- Result of running a sequence of frames through the classifier. -/
structure RunResult where
  states : StateMap
  events : List GestureEvent
  fresh : Nat
deriving DecidableEq, Repr

/-- Run a list of `(now, frame)` pairs through the classifier in order,
collecting every emitted event. -/
def runFrames (cfg : IALConfig) : List (Int × HandTrackingResult) → StateMap → Nat → RunResult
  | [], st, f => ⟨st, [], f⟩
  | (now, r) :: rest, st, f =>
      let p := processHandGestures cfg now f r st
      let q := runFrames cfg rest p.states p.fresh
      ⟨q.states, p.event.toList ++ q.events, q.fresh⟩

/-! ### Gesture mapper (`GestureMapper`) -/

/-- One entry of the mapping table (source type `GestureMapping`). -/
structure GestureMapping where
  gesture : GestureType
  action : String
  requireFocus : Bool := false
  global : Bool := false
  holdMillis : Option Int := none
  confidenceThreshold : Option Rat := none
deriving DecidableEq, Repr

/-- The default mapping table seeded by `setupDefaultMappings`. -/
def defaultMappings : List (GestureType × GestureMapping) :=
  [(.open_palm, { gesture := .open_palm, action := "open-launcher", global := true }),
   (.pinch, { gesture := .pinch, action := "drag", requireFocus := true, holdMillis := some 80 }),
   (.push_forward, { gesture := .push_forward, action := "click", requireFocus := true }),
   (.swipe_left, { gesture := .swipe_left, action := "prev-desktop", global := true }),
   (.swipe_right, { gesture := .swipe_right, action := "next-desktop", global := true }),
   (.two_finger_pinch, { gesture := .two_finger_pinch, action := "minimize", requireFocus := true }),
   (.two_finger_spread, { gesture := .two_finger_spread, action := "maximize", requireFocus := true }),
   (.closed_fist, { gesture := .closed_fist, action := "grab", requireFocus := true })]

/-- Mutable state of a `GestureMapper`: the mapping table, the rate-limit
policy's captured `lastActionTimes` map, and the default threshold. -/
structure MapperState where
  mappings : List (GestureType × GestureMapping)
  lastActionTimes : List (GestureType × Int)
  defaultConfidenceThreshold : Rat
deriving DecidableEq, Repr

/-- A freshly constructed mapper with no configuration override. -/
def initMapper : MapperState := ⟨defaultMappings, [], 8/10⟩

/-- The default confidence policy.  The source computes the threshold as
`mapping?.confidenceThreshold || defaultConfidenceThreshold`: JS `||` falls
back on every falsy value, so a configured threshold of `0` (and an absent
mapping or absent field) selects the global default. -/
def confidencePolicy (s : MapperState) (e : GestureEvent) : Bool :=
  let threshold :=
    match alistLookup s.mappings e.type with
    | some m =>
        match m.confidenceThreshold with
        | some t => if t = 0 then s.defaultConfidenceThreshold else t
        | none => s.defaultConfidenceThreshold
    | none => s.defaultConfidenceThreshold
  decide (e.confidence ≥ threshold)

/-- Variant of the confidence policy written from the SPEC's words
(`event.confidence ≥ (mapping.confidenceThreshold ?? globalDefaultThreshold)`,
nullish-coalescing): an explicitly configured threshold — `0` included — is
used as-is.  Kept only to compare against the source's `confidencePolicy`. -/
def specConfidencePolicy (s : MapperState) (e : GestureEvent) : Bool :=
  let threshold :=
    match alistLookup s.mappings e.type with
    | some m => m.confidenceThreshold.getD s.defaultConfidenceThreshold
    | none => s.defaultConfidenceThreshold
  decide (e.confidence ≥ threshold)

/-- The default rate-limit policy: passes iff at least 200 ms separate `now`
from the last recorded time for this gesture type, and records `now` exactly
when it passes.  Returns the pass flag and the updated `lastActionTimes`. -/
def rateLimitPolicy (now : Int) (lastActionTimes : List (GestureType × Int))
    (e : GestureEvent) : Bool × List (GestureType × Int) :=
  let lastTime := (alistLookup lastActionTimes e.type).getD 0
  if now - lastTime ≥ 200 then (true, alistInsert lastActionTimes e.type now)
  else (false, lastActionTimes)

/-- The default context policy: fails when the gesture is unmapped; global
mappings pass; focus-required mappings pass unconditionally in the baseline
(no real focused-window check); everything else passes. -/
def contextPolicy (s : MapperState) (e : GestureEvent) : Bool :=
  match alistLookup s.mappings e.type with
  | none => false
  | some m => if m.global then true else if m.requireFocus then true else true

/-- Result of `processGesture`: the updated mapper state and the dispatched
`(action, event)` pair, if any. -/
structure DispatchResult where
  mapper : MapperState
  dispatched : Option (String × GestureEvent)
deriving DecidableEq, Repr

/-- `GestureMapper.processGesture`: drop unmapped events; otherwise evaluate
every registered policy (the source maps over all policies with no
short-circuit, so the rate-limit bookkeeping runs regardless of the other
policies' verdicts) and dispatch iff all pass.  The `mapping.holdMillis`
check of the source is an empty no-op block. -/
def processGesture (now : Int) (s : MapperState) (e : GestureEvent) : DispatchResult :=
  match alistLookup s.mappings e.type with
  | none => ⟨s, none⟩
  | some m =>
      let c := confidencePolicy s e
      let rl := rateLimitPolicy now s.lastActionTimes e
      let cx := contextPolicy s e
      let s1 : MapperState := ⟨s.mappings, rl.2, s.defaultConfidenceThreshold⟩
      if c && rl.1 && cx then ⟨s1, some (m.action, e)⟩ else ⟨s1, none⟩

/-! ### Subscriber fan-out (`emitAction`, `emitGestureEvent`)

A subscriber is modelled as a function that either returns or throws
(`Except String Unit`).  Both emitters run `callbacks.forEach(cb => cb(...))`
with no try/catch, so a throw escapes `forEach`: the run returns how many
callbacks were actually invoked together with the escaping exception. -/

/-- Run a callback list in order, stopping at the first throw; returns the
number of callbacks invoked and the escaping exception, if any. -/
def runCallbacks (cbs : List (GestureEvent → Except String Unit))
    (e : GestureEvent) : Nat × Option String :=
  match cbs with
  | [] => (0, none)
  | c :: rest =>
      match c e with
      | .ok _ => ((runCallbacks rest e).1 + 1, (runCallbacks rest e).2)
      | .error msg => (1, some msg)

/-- `InputAbstractionLayer.emitGestureEvent`: plain `forEach` over the raw
gesture subscribers. -/
def emitGestureEvent (cbs : List (GestureEvent → Except String Unit))
    (e : GestureEvent) : Nat × Option String :=
  runCallbacks cbs e

/-- `GestureMapper.emitAction`: plain `forEach` over the action subscribers,
each invoked with `(action, event)`. -/
def emitAction (cbs : List (String → GestureEvent → Except String Unit))
    (action : String) (e : GestureEvent) : Nat × Option String :=
  runCallbacks (cbs.map (fun c => c action)) e

/-! ### Window manager drag session (`WindowManager`) -/

/-- A window, reduced to the field the drag logic manipulates. -/
structure WOSWindow where
  position : Vec2
deriving DecidableEq, Repr

/-- The slice of the system store the drag logic touches. -/
structure Store where
  windows : List (String × WOSWindow)
  focusedWindowId : Option String
deriving DecidableEq, Repr

/-- `WindowManager.dragState`. -/
structure DragState where
  isDragging : Bool
  windowId : Option String
  startPosition : Vec2
  offset : Vec2
  gestureSequenceId : Option Nat
deriving DecidableEq, Repr

/-- The idle drag state. -/
def initDragState : DragState := ⟨false, none, ⟨0, 0⟩, ⟨0, 0⟩, none⟩

/-- `WindowManager.updateWindowPosition`: clamp the target so at least 200 px
of width and the 50 px title bar stay on-screen, then patch the window in the
store (`store.updateWindow` patches only a matching id). -/
def updateWindowPosition (dims : Vec2) (store : Store) (wid : String)
    (p : Vec2) : Store :=
  let cp : Vec2 := ⟨max 0 (min p.x (dims.x - 200)), max 0 (min p.y (dims.y - 50))⟩
  match alistLookup store.windows wid with
  | some _ => ⟨alistInsert store.windows wid ⟨cp⟩, store.focusedWindowId⟩
  | none => store

/-- Result of `handleDragGesture`: the new drag state and store. -/
structure DragResult where
  drag : DragState
  store : Store
deriving DecidableEq, Repr

/-- `WindowManager.handleDragGesture` (timer bookkeeping aside): a matching
active sequence continues the drag and moves the window to
`cursor − offset`; otherwise a new session is opened from the currently
focused window (fresh anchor offset, the incoming event's id), and when no
focused window resolves, the state is left untouched. -/
def handleDragGesture (dims : Vec2) (store : Store) (ds : DragState)
    (e : GestureEvent) : DragResult :=
  let screen : Vec2 := ⟨e.normalizedPosition.x * dims.x, e.normalizedPosition.y * dims.y⟩
  if ds.isDragging = true ∧ ds.windowId.isSome ∧ ds.gestureSequenceId = e.id then
    ⟨ds, updateWindowPosition dims store (ds.windowId.getD "")
          ⟨screen.x - ds.offset.x, screen.y - ds.offset.y⟩⟩
  else
    match store.focusedWindowId with
    | some wid =>
        match alistLookup store.windows wid with
        | some w =>
            ⟨⟨true, some wid, screen,
              ⟨screen.x - w.position.x, screen.y - w.position.y⟩, e.id⟩, store⟩
        | none => ⟨ds, store⟩
    | none => ⟨ds, store⟩

/-! ### Concrete scenario inputs -/

/-- The all-zero landmark. -/
def lmDefault : HandLandmark := ⟨0, 0, 0⟩

/-- A 21-landmark pinch hand: thumb extended (tip x `0.5` > PIP x `0.4`),
index extended (tip y `0.5` < PIP y `0.9`), thumb–index tip distance exactly
`0.03`; the remaining fingers are folded. -/
def pinchLm : List HandLandmark :=
  [lmDefault, lmDefault, lmDefault, ⟨2/5, 1/2, 0⟩, ⟨1/2, 1/2, 0⟩,
   lmDefault, ⟨0, 9/10, 0⟩, lmDefault, ⟨53/100, 1/2, 0⟩, lmDefault,
   lmDefault, lmDefault, lmDefault, lmDefault, lmDefault,
   lmDefault, lmDefault, lmDefault, lmDefault, lmDefault, lmDefault]

/-- A right-hand pinch observation at time `t` with detector confidence 0.8. -/
def pinchFrame (t : Int) : HandTrackingResult := ⟨pinchLm, "Right", 8/10, t⟩

/-- A 21-landmark hand whose palm center is `(1, 0)` (wrist and middle MCP
both at `x = 1`); used to exercise the kinematic update. -/
def unitLm : List HandLandmark :=
  [⟨1, 0, 0⟩, lmDefault, lmDefault, lmDefault, lmDefault,
   lmDefault, lmDefault, lmDefault, lmDefault, ⟨1, 0, 0⟩,
   lmDefault, lmDefault, lmDefault, lmDefault, lmDefault,
   lmDefault, lmDefault, lmDefault, lmDefault, lmDefault, lmDefault]

/-- A right-hand observation of `unitLm` at time `t`. -/
def unitFrame (t : Int) : HandTrackingResult := ⟨unitLm, "Right", 8/10, t⟩

/-- A malformed observation with only 20 landmarks. -/
def shortFrame (t : Int) : HandTrackingResult :=
  ⟨List.replicate 20 lmDefault, "Right", 8/10, t⟩

/-- A sample classified event (used as concrete subscriber-dispatch input). -/
def sampleEvent : GestureEvent := ⟨some 0, .pinch, 9/10, ⟨0, 0⟩, "Right", 0, none⟩

/-- A pinch event with confidence 0.5, below the global default threshold. -/
def lowConfEvent : GestureEvent := ⟨some 1, .pinch, 1/2, ⟨0, 0⟩, "Right", 0, none⟩

/-- A per-hand state in the middle of a held pinch: identity id 5, started at
time 1000000, EMA confidence 0.9. -/
def heldPinchState : GestureState :=
  ⟨some .pinch, 1000000, some 5, 9/10, ⟨0, 0⟩, ⟨0, 0⟩, ⟨0, 0⟩⟩

/-- A mapper whose pinch mapping explicitly configures `confidenceThreshold`
to `0`. -/
def zeroThresholdMapper : MapperState :=
  ⟨[(.pinch, { gesture := .pinch, action := "drag", confidenceThreshold := some 0 })], [], 8/10⟩

/-- Screen dimensions used by the concrete drag scenarios. -/
def dragDims : Vec2 := ⟨1000, 1000⟩

/-- A store with one window `"w"` at the left edge, focused. -/
def edgeStore : Store := ⟨[("w", ⟨⟨0, 100⟩⟩)], some "w"⟩

/-- An active drag session on `"w"` with sequence id 7 and anchor offset
`(100, 50)`. -/
def edgeDrag : DragState := ⟨true, some "w", ⟨0, 0⟩, ⟨100, 50⟩, some 7⟩

/-- Continuation event of session 7 whose screen position is `(50, 500)`. -/
def edgeEv1 : GestureEvent := ⟨some 7, .pinch, 9/10, ⟨1/20, 1/2⟩, "Right", 0, none⟩

/-- Continuation event of session 7 whose screen position is `(40, 500)`. -/
def edgeEv2 : GestureEvent := ⟨some 7, .pinch, 9/10, ⟨1/25, 1/2⟩, "Right", 16, none⟩

/-- A store with one window `"w"` well inside the screen, focused. -/
def midStore : Store := ⟨[("w", ⟨⟨100, 100⟩⟩)], some "w"⟩

/-- An active drag session on `"w"` with sequence id 9 and anchor offset
`(10, 10)`. -/
def midDrag : DragState := ⟨true, some "w", ⟨0, 0⟩, ⟨10, 10⟩, some 9⟩

/-- Continuation event of session 9 whose screen position is `(500, 500)`. -/
def midEv1 : GestureEvent := ⟨some 9, .pinch, 9/10, ⟨1/2, 1/2⟩, "Right", 0, none⟩

/-- Continuation event of session 9 whose screen position is `(600, 600)`. -/
def midEv2 : GestureEvent := ⟨some 9, .pinch, 9/10, ⟨3/5, 3/5⟩, "Right", 16, none⟩

/-- An active drag session on `"a"` with sequence id 1. -/
def staleDrag : DragState := ⟨true, some "a", ⟨0, 0⟩, ⟨0, 0⟩, some 1⟩

/-- A store holding window `"a"` but with no focused window. -/
def noFocusStore : Store := ⟨[("a", ⟨⟨5, 5⟩⟩)], none⟩

/-- A drag event carrying the new sequence id 2. -/
def newSeqEvent : GestureEvent := ⟨some 2, .pinch, 9/10, ⟨1/2, 1/2⟩, "Right", 0, none⟩

/-- A healthy raw-gesture subscriber. -/
def okGestureCb : GestureEvent → Except String Unit := fun _ => Except.ok ()

/-- A raw-gesture subscriber that throws. -/
def boomGestureCb : GestureEvent → Except String Unit := fun _ => Except.error "boom"

/-- A healthy action subscriber. -/
def okActionCb : String → GestureEvent → Except String Unit := fun _ _ => Except.ok ()

/-- An action subscriber that throws. -/
def bangActionCb : String → GestureEvent → Except String Unit := fun _ _ => Except.error "bang"

/-! ### Helper lemmas -/

/-- Looking up the key just written returns the written value. -/
theorem alistLookup_insert_self {κ α : Type} [DecidableEq κ]
    (l : List (κ × α)) (k : κ) (v : α) :
    alistLookup (alistInsert l k v) k = some v := by
  induction l with
  | nil => simp [alistInsert, alistLookup]
  | cons hd t ih =>
      obtain ⟨k', v'⟩ := hd
      by_cases hk : k' = k <;> simp [alistInsert, alistLookup, hk, ih]

/-- `runCallbacks` on a list whose head throws invokes only that head and
lets the exception escape. -/
theorem runCallbacks_head_error (c : GestureEvent → Except String Unit)
    (rest : List (GestureEvent → Except String Unit)) (e : GestureEvent)
    (msg : String) (h : c e = Except.error msg) :
    runCallbacks (c :: rest) e = (1, some msg) := by
  simp [runCallbacks, h]

/-- `runCallbacks` stops at the first throwing callback: every callback
before it runs, the thrower runs, nothing after it runs, and the exception
escapes. -/
theorem runCallbacks_error_stops (good : List (GestureEvent → Except String Unit))
    (bad : GestureEvent → Except String Unit)
    (rest : List (GestureEvent → Except String Unit)) (e : GestureEvent)
    (msg : String) (hgood : ∀ g ∈ good, g e = Except.ok ())
    (hbad : bad e = Except.error msg) :
    runCallbacks (good ++ bad :: rest) e = (good.length + 1, some msg) := by
  induction good with
  | nil => simp [runCallbacks, hbad]
  | cons c t ih =>
      have hc : c e = Except.ok () := hgood c (by simp)
      have ht : ∀ g ∈ t, g e = Except.ok () := fun g hg => hgood g (by simp [hg])
      simp [runCallbacks, hc, ih ht]

/-- The per-hand step never touches the kinematic fields after `kinUpdate`:
the resulting velocity subtracts the incoming `previousPosition` from the
palm center. -/
theorem identityUpdate_velocity (cfg : IALConfig) (now : Int) (fresh : Nat)
    (result : HandTrackingResult) (det : Option DetectedGesture)
    (base : GestureState) :
    (identityUpdate cfg now fresh result det base).state.velocity = base.velocity := by
  rcases det with _ | d
  · rfl
  · by_cases hc : base.lastGesture = some d.type <;>
      simp [identityUpdate, hc]

/-- The per-hand step never touches `previousPosition` after `kinUpdate`. -/
theorem identityUpdate_previousPosition (cfg : IALConfig) (now : Int) (fresh : Nat)
    (result : HandTrackingResult) (det : Option DetectedGesture)
    (base : GestureState) :
    (identityUpdate cfg now fresh result det base).state.previousPosition =
      base.previousPosition := by
  rcases det with _ | d
  · rfl
  · by_cases hc : base.lastGesture = some d.type <;>
      simp [identityUpdate, hc]

/-- Emission gate at the per-hand step: when the threshold is positive, an
event comes out iff the updated confidence reaches the threshold and the
updated identity start time is at least `gestureHoldTime` in the past. -/
theorem stepHand_gate (cfg : IALConfig) (now : Int) (fresh : Nat)
    (result : HandTrackingResult) (s : GestureState)
    (hθ : 0 < cfg.confidenceThreshold) :
    ((stepHand cfg now fresh result s).event.isSome = true ↔
      (cfg.confidenceThreshold ≤ (stepHand cfg now fresh result s).state.confidence ∧
       cfg.gestureHoldTime ≤ now - (stepHand cfg now fresh result s).state.gestureStartTime)) := by
  have hbase : stepHand cfg now fresh result s =
      identityUpdate cfg now fresh result
        (detectGesture result.landmarks (kinUpdate cfg (palmCenter result.landmarks) s).velocity)
        (kinUpdate cfg (palmCenter result.landmarks) s) := rfl
  rw [hbase]
  rcases hd : detectGesture result.landmarks
      (kinUpdate cfg (palmCenter result.landmarks) s).velocity with _ | d
  · constructor
    · intro h
      simp [identityUpdate] at h
    · rintro ⟨hcon, -⟩
      exfalso
      simp [identityUpdate] at hcon
      linarith
  · simp only [identityUpdate]
    by_cases hc : (kinUpdate cfg (palmCenter result.landmarks) s).lastGesture = some d.type <;>
      simp only [hc, if_true, if_false, ite_true, ite_false] <;> split <;>
      rename_i hgate <;> simp_all

/-- A drag event whose sequence id matches the active session continues it:
the session state is kept and the window is moved to cursor − offset. -/
theorem handleDragGesture_continuing (dims : Vec2) (store : Store) (ds : DragState)
    (e : GestureEvent) (w : String)
    (hd : ds.isDragging = true) (hw : ds.windowId = some w)
    (hs : ds.gestureSequenceId = e.id) :
    handleDragGesture dims store ds e =
      ⟨ds, updateWindowPosition dims store w
        ⟨e.normalizedPosition.x * dims.x - ds.offset.x,
         e.normalizedPosition.y * dims.y - ds.offset.y⟩⟩ := by
  simp [handleDragGesture, hd, hw, hs]

/-- When the clamp bounds are slack, `updateWindowPosition` writes the
requested position verbatim. -/
theorem updateWindowPosition_inbounds (dims : Vec2) (store : Store) (w : String)
    (win : WOSWindow) (p : Vec2) (hwin : alistLookup store.windows w = some win)
    (hx : 0 ≤ p.x) (hx' : p.x ≤ dims.x - 200) (hy : 0 ≤ p.y) (hy' : p.y ≤ dims.y - 50) :
    updateWindowPosition dims store w p =
      ⟨alistInsert store.windows w ⟨p⟩, store.focusedWindowId⟩ := by
  have hcx : max 0 (min p.x (dims.x - 200)) = p.x := by
    rw [min_eq_left hx', max_eq_right hx]
  have hcy : max 0 (min p.y (dims.y - 50)) = p.y := by
    rw [min_eq_left hy', max_eq_right hy]
  simp [updateWindowPosition, hwin, hcx, hcy]

/-! ### Claims -/

/-- **C1** (corrected), counterexample.  The claim says a throwing
subscriber is caught per-listener, the remaining subscribers still run and
nothing escapes.  On the concrete two-subscriber lists below — the first
subscriber throws, the second is healthy — both emitters invoke only one of
the two subscribers and let the exception escape, so the claimed isolation
fails at this input for both `emitGestureEvent` and `emitAction`. -/
theorem C1_counterexample :
    ¬((emitGestureEvent [boomGestureCb, okGestureCb] sampleEvent).1 = 2 ∧
      (emitGestureEvent [boomGestureCb, okGestureCb] sampleEvent).2 = none) ∧
    ¬((emitAction [bangActionCb, okActionCb] "drag" sampleEvent).1 = 2 ∧
      (emitAction [bangActionCb, okActionCb] "drag" sampleEvent).2 = none) := by
  refine ⟨fun h => ?_, fun h => ?_⟩
  · simp [emitGestureEvent, runCallbacks, boomGestureCb, okGestureCb] at h
  · simp [emitAction, runCallbacks, bangActionCb, okActionCb] at h

/-- **C1** (corrected), amended claim.  Neither `emitAction` nor
`emitGestureEvent` guards its `forEach` with a try/catch, so a subscriber
failure is NOT isolated: every subscriber before the first throwing one is
invoked, the throwing one is invoked, delivery to all remaining subscribers
is aborted, and the exception propagates out of the dispatch. -/
theorem C1_amended (good : List (GestureEvent → Except String Unit))
    (bad : GestureEvent → Except String Unit)
    (rest : List (GestureEvent → Except String Unit))
    (agood : List (String → GestureEvent → Except String Unit))
    (abad : String → GestureEvent → Except String Unit)
    (arest : List (String → GestureEvent → Except String Unit))
    (act : String) (e : GestureEvent) (msg msg' : String)
    (hgood : ∀ g ∈ good, g e = Except.ok ())
    (hbad : bad e = Except.error msg)
    (hagood : ∀ g ∈ agood, g act e = Except.ok ())
    (habad : abad act e = Except.error msg') :
    emitGestureEvent (good ++ bad :: rest) e = (good.length + 1, some msg) ∧
    emitAction (agood ++ abad :: arest) act e = (agood.length + 1, some msg') := by
  constructor
  · exact runCallbacks_error_stops good bad rest e msg hgood hbad
  · have := runCallbacks_error_stops (agood.map (fun c => c act)) (abad act)
      (arest.map (fun c => c act)) e msg'
      (by intro g hg; obtain ⟨g', hg', rfl⟩ := List.mem_map.1 hg; exact hagood g' hg')
      habad
    simpa [emitAction, List.map_append] using this

/-- **C1** witness: a concrete instantiation of the amended claim — one
healthy subscriber, then a thrower, then one more healthy subscriber, on
both emitters. -/
theorem C1_witness :
    (∀ g ∈ [okGestureCb], g sampleEvent = Except.ok ()) ∧
    boomGestureCb sampleEvent = Except.error "boom" ∧
    (∀ g ∈ [okActionCb], g "drag" sampleEvent = Except.ok ()) ∧
    bangActionCb "drag" sampleEvent = Except.error "bang" ∧
    emitGestureEvent ([okGestureCb] ++ boomGestureCb :: [okGestureCb]) sampleEvent =
      (2, some "boom") ∧
    emitAction ([okActionCb] ++ bangActionCb :: [okActionCb]) "drag" sampleEvent =
      (2, some "bang") := by
  have h := C1_amended [okGestureCb] boomGestureCb [okGestureCb]
    [okActionCb] bangActionCb [okActionCb] "drag" sampleEvent "boom" "bang"
    (by simp [okGestureCb]) rfl (by simp [okActionCb]) rfl
  exact ⟨by simp [okGestureCb], rfl, by simp [okActionCb], rfl, by simpa using h.1,
    by simpa using h.2⟩

/-- **C9** (confirmed).  An observation with fewer than 21 landmarks is
ignored outright: no event is emitted, the fresh-id counter is untouched and
the whole state map — existing entries and absence of new entries alike — is
returned unchanged. -/
theorem C9_short_frame_noop (cfg : IALConfig) (now : Int) (fresh : Nat)
    (result : HandTrackingResult) (states : StateMap)
    (h : result.landmarks.length < 21) :
    processHandGestures cfg now fresh result states = ⟨states, none, fresh⟩ := by
  simp [processHandGestures, h]

/-- **C9** witness: a concrete 20-landmark frame against the empty state map
is a complete no-op. -/
theorem C9_witness :
    (shortFrame 5).landmarks.length < 21 ∧
    processHandGestures defaultIALConfig 5 0 (shortFrame 5) [] = ⟨[], none, 0⟩ := by
  refine ⟨by decide, C9_short_frame_noop _ _ _ _ _ (by decide)⟩

/-- **C2** (corrected), counterexample.  The claimed scenario run: a hand
holding a 0.03 thumb–index pinch (both fingers extended) across frames at
t = 1000000 and t = 1000080 — i.e. sustained for 80 ms.  The classifier
gates emission on its own `gestureHoldTime` default of 150 ms, which the
pinch mapping's `holdMillis: 80` never overrides (the mapper's `holdMillis`
check is an empty block), so, contrary to the claim, NO `pinch` event is
emitted and consequently no `drag` action can be dispatched. -/
theorem C2_counterexample :
    (runFrames defaultIALConfig
      [(1000000, pinchFrame 1000000), (1000080, pinchFrame 1000080)] [] 0).events = [] := by
  norm_num +decide [runFrames, processHandGestures, stepHand, identityUpdate, kinUpdate,
    palmCenter, detectGesture, fingerExtensions, List.range_succ, lmAt, fingerTips, fingerPips,
    distSq, pinchLm, pinchFrame, lmDefault, alistLookup, alistInsert, initialGestureState,
    defaultIALConfig]

/-- **C2** (corrected), amended claim.  The same pinch hand sustained to
150 ms (frames at t = 1000000, 1000080, 1000150): only then does the
classifier emit, exactly one `pinch` event (classifier confidence 0.9 from
the pinch rule, ≥ the 0.8 threshold), and feeding that event to the default
mapper dispatches the `drag` action.  At 80 ms of sustain nothing is
emitted, because the classifier's 150 ms `gestureHoldTime` default governs
and the mapping's `holdMillis: 80` is dead configuration. -/
theorem C2_amended :
    ((runFrames defaultIALConfig
      [(1000000, pinchFrame 1000000), (1000080, pinchFrame 1000080),
       (1000150, pinchFrame 1000150)] [] 0).events.map
        (fun ev => (ev.type, (processGesture 1000150 initMapper ev).dispatched.map Prod.fst))) =
      [(.pinch, some "drag")] := by
  norm_num +decide [runFrames, processHandGestures, stepHand, identityUpdate, kinUpdate,
    palmCenter, detectGesture, fingerExtensions, List.range_succ, lmAt, fingerTips, fingerPips,
    distSq, pinchLm, pinchFrame, lmDefault, alistLookup, alistInsert, initialGestureState,
    defaultIALConfig, processGesture, initMapper, defaultMappings, confidencePolicy,
    rateLimitPolicy, contextPolicy]

/-- **C3** (corrected), counterexample.  Two frames of `unitLm` (palm center
`(1, 0)`) processed from the empty state map: the claim predicts the second
frame's velocity to be palm center minus the smoothed position that resulted
from the FIRST frame (`2/5`), i.e. `3/5`; the code instead subtracts the
position captured before the first frame's smoothing (`0`), yielding `1`. -/
theorem C3_counterexample :
    (let r1 := processHandGestures defaultIALConfig 1000000 0 (unitFrame 1000000) []
     let r2 := processHandGestures defaultIALConfig 1000016 r1.fresh (unitFrame 1000016) r1.states
     let s1 := (alistLookup r1.states "Right").getD initialGestureState
     let s2 := (alistLookup r2.states "Right").getD initialGestureState
     s2.velocity ≠ ⟨(palmCenter unitLm).x - s1.position.x,
                    (palmCenter unitLm).y - s1.position.y⟩) := by
  norm_num +decide [processHandGestures, stepHand, identityUpdate, kinUpdate, palmCenter,
    detectGesture, fingerExtensions, List.range_succ, lmAt, fingerTips, fingerPips, distSq,
    unitLm, unitFrame, lmDefault, alistLookup, alistInsert, initialGestureState,
    defaultIALConfig, Vec2.mk.injEq]

/-- **C3** (corrected), amended claim.  The instantaneous velocity computed
for frame n equals the current palm center minus the smoothed position that
resulted from frame n−2, not n−1: `previousPosition` is refreshed to the
pre-smoothing position each frame, so the subtracted term lags one frame
behind what the claim states. -/
theorem C3_amended (cfg : IALConfig) (n1 n2 : Int) (fr : Nat)
    (f1 f2 : HandTrackingResult) (states : StateMap)
    (h1 : 21 ≤ f1.landmarks.length) (h2 : 21 ≤ f2.landmarks.length)
    (hk : f2.handedness = f1.handedness) :
    (let s0 := (alistLookup states f1.handedness).getD initialGestureState
     let r1 := processHandGestures cfg n1 fr f1 states
     let r2 := processHandGestures cfg n2 r1.fresh f2 r1.states
     let s2 := (alistLookup r2.states f1.handedness).getD initialGestureState
     s2.velocity = ⟨(palmCenter f2.landmarks).x - s0.position.x,
                    (palmCenter f2.landmarks).y - s0.position.y⟩) := by
  intro s0 r1 r2 s2
  have e1 : r1 = processHandGestures cfg n1 fr f1 states := rfl
  have l1 : ¬ f1.landmarks.length < 21 := by omega
  have l2 : ¬ f2.landmarks.length < 21 := by omega
  have hr1 : r1.states = alistInsert states f1.handedness
      (stepHand cfg n1 fr f1 s0).state := by
    simp [e1, processHandGestures, l1, s0]
  have hs1 : (alistLookup r1.states f1.handedness).getD initialGestureState =
      (stepHand cfg n1 fr f1 s0).state := by
    simp [hr1, alistLookup_insert_self]
  have hr2 : r2.states = alistInsert r1.states f1.handedness
      (stepHand cfg n2 r1.fresh f2 ((stepHand cfg n1 fr f1 s0).state)).state := by
    simp only [r2, processHandGestures, l2, if_neg, ite_false, hk, hs1]
  have hs2 : s2 = (stepHand cfg n2 r1.fresh f2 ((stepHand cfg n1 fr f1 s0).state)).state := by
    simp [s2, hr2, alistLookup_insert_self]
  rw [hs2]
  show (identityUpdate cfg n2 r1.fresh f2 _ (kinUpdate cfg (palmCenter f2.landmarks) _)).state.velocity = _
  rw [identityUpdate_velocity]
  show (kinUpdate cfg (palmCenter f2.landmarks) _).velocity = _
  rw [kinUpdate]
  have hp : (stepHand cfg n1 fr f1 s0).state.previousPosition = s0.position := by
    show (identityUpdate cfg n1 fr f1 _ (kinUpdate cfg (palmCenter f1.landmarks) s0)).state.previousPosition = _
    rw [identityUpdate_previousPosition]
    rfl
  simp [hp]

/-- **C3** witness: the amended off-by-one relation at the concrete
two-frame `unitLm` run — the second frame's velocity is palm center minus
the initial (frame-zero) position, giving `(1, 0)`. -/
theorem C3_witness :
    21 ≤ (unitFrame 1000000).landmarks.length ∧
    21 ≤ (unitFrame 1000016).landmarks.length ∧
    (unitFrame 1000016).handedness = (unitFrame 1000000).handedness ∧
    (let s0 := (alistLookup ([] : StateMap) (unitFrame 1000000).handedness).getD
        initialGestureState
     let r1 := processHandGestures defaultIALConfig 1000000 0 (unitFrame 1000000) []
     let r2 := processHandGestures defaultIALConfig 1000016 r1.fresh (unitFrame 1000016) r1.states
     let s2 := (alistLookup r2.states (unitFrame 1000000).handedness).getD initialGestureState
     s2.velocity = ⟨(palmCenter (unitFrame 1000016).landmarks).x - s0.position.x,
                    (palmCenter (unitFrame 1000016).landmarks).y - s0.position.y⟩) :=
  ⟨by decide, by decide, rfl,
    C3_amended defaultIALConfig 1000000 1000016 0 (unitFrame 1000000) (unitFrame 1000016) []
      (by decide) (by decide) rfl⟩

/-- **C4** (confirmed).  For every processed frame (≥ 21 landmarks) and any
positive configured threshold, an event is emitted iff the hand's running
EMA confidence (the post-update state value) is at least the threshold AND
at least `gestureHoldTime` has elapsed since the current identity's start;
in particular no event is emitted before the hold time has elapsed even
when the confidence threshold is already exceeded. -/
theorem C4_emission_gate (cfg : IALConfig) (now : Int) (fresh : Nat)
    (result : HandTrackingResult) (states : StateMap)
    (hθ : 0 < cfg.confidenceThreshold) (h21 : 21 ≤ result.landmarks.length) :
    (let r := processHandGestures cfg now fresh result states
     let s1 := (alistLookup r.states result.handedness).getD initialGestureState
     (r.event.isSome = true ↔
       (cfg.confidenceThreshold ≤ s1.confidence ∧
        cfg.gestureHoldTime ≤ now - s1.gestureStartTime)) ∧
     (∀ ev, r.event = some ev → cfg.gestureHoldTime ≤ now - s1.gestureStartTime)) := by
  intro r s1
  have l : ¬ result.landmarks.length < 21 := by omega
  have hre : r.event = (stepHand cfg now fresh result
      ((alistLookup states result.handedness).getD initialGestureState)).event := by
    simp [r, processHandGestures, l]
  have hs1 : s1 = (stepHand cfg now fresh result
      ((alistLookup states result.handedness).getD initialGestureState)).state := by
    simp [s1, r, processHandGestures, l, alistLookup_insert_self]
  have key := stepHand_gate cfg now fresh result
    ((alistLookup states result.handedness).getD initialGestureState) hθ
  constructor
  · rw [hre, hs1]
    exact key
  · intro ev hev
    rw [hs1]
    refine (key.mp ?_).2
    rw [hre] at hev
    simp [hev]

/-- **C4** witness: a pinch held since t = 1000000 with EMA confidence 0.9,
observed again at t = 1000150 under the default configuration — the gate is
satisfied on both sides of the equivalence. -/
theorem C4_witness :
    (0 : Rat) < defaultIALConfig.confidenceThreshold ∧
    21 ≤ (pinchFrame 1000150).landmarks.length ∧
    (let r := processHandGestures defaultIALConfig 1000150 6 (pinchFrame 1000150)
        [("Right", heldPinchState)]
     let s1 := (alistLookup r.states (pinchFrame 1000150).handedness).getD initialGestureState
     (r.event.isSome = true ↔
       (defaultIALConfig.confidenceThreshold ≤ s1.confidence ∧
        defaultIALConfig.gestureHoldTime ≤ 1000150 - s1.gestureStartTime)) ∧
     (∀ ev, r.event = some ev →
        defaultIALConfig.gestureHoldTime ≤ 1000150 - s1.gestureStartTime)) :=
  ⟨by norm_num [defaultIALConfig], by decide,
    C4_emission_gate defaultIALConfig 1000150 6 (pinchFrame 1000150)
      [("Right", heldPinchState)] (by norm_num [defaultIALConfig]) (by decide)⟩

/-- **C7** (confirmed).  Under the standing invariants of the state map —
`gestureId` is `none` exactly when `lastGesture` is, and every issued id is
below the fresh counter — one processed frame changes the stored
`gestureId` iff the classified outcome (including no-gesture) differs from
the previous frame's stored classification; and while the classification is
unchanged, any emitted event carries the previously stored id. -/
theorem C7_identity_change (cfg : IALConfig) (now : Int) (fresh : Nat)
    (result : HandTrackingResult) (s : GestureState)
    (hinv : s.gestureId = none ↔ s.lastGesture = none)
    (hfr : ∀ k, s.gestureId = some k → k < fresh) :
    (let r := stepHand cfg now fresh result s
     let cl := (detectGesture result.landmarks
        (kinUpdate cfg (palmCenter result.landmarks) s).velocity).map DetectedGesture.type
     (¬ r.state.gestureId = s.gestureId ↔ ¬ cl = s.lastGesture) ∧
     (cl = s.lastGesture → ∀ ev, r.event = some ev → ev.id = s.gestureId)) := by
  intro r cl
  have hbase : r = identityUpdate cfg now fresh result
      (detectGesture result.landmarks (kinUpdate cfg (palmCenter result.landmarks) s).velocity)
      (kinUpdate cfg (palmCenter result.landmarks) s) := rfl
  rcases hd : detectGesture result.landmarks
      (kinUpdate cfg (palmCenter result.landmarks) s).velocity with _ | d
  · have hcl : cl = none := by simp [cl, hd]
    have hr : r.state.gestureId = none := by
      rw [hbase, hd]
      rfl
    have hev : r.event = none := by
      rw [hbase, hd]
      rfl
    constructor
    · rw [hr, hcl]
      constructor
      · intro h hlast
        exact h (hinv.mpr hlast.symm).symm
      · intro h hid
        exact h (hinv.mp hid.symm).symm
    · intro _ ev hevv
      rw [hev] at hevv
      exact absurd hevv (by simp)
  · have hcl : cl = some d.type := by simp [cl, hd]
    by_cases hc : s.lastGesture = some d.type
    · have hr : r.state.gestureId = s.gestureId := by
        rw [hbase, hd]
        simp [identityUpdate, kinUpdate, hc]
      constructor
      · rw [hr, hcl, hc]
        simp
      · intro _ ev hevv
        rw [hbase, hd] at hevv
        simp only [identityUpdate, kinUpdate, hc, if_true, ite_true] at hevv
        split at hevv
        · rw [Option.some.injEq] at hevv
          subst hevv
          rfl
        · exact absurd hevv (by simp)
    · have hr : r.state.gestureId = some fresh := by
        rw [hbase, hd]
        simp [identityUpdate, kinUpdate, hc]
      constructor
      · rw [hr, hcl]
        constructor
        · intro _ h
          exact hc h.symm
        · intro _ h
          rcases hg : s.gestureId with _ | k
          · rw [hg] at h
            exact absurd h (by simp)
          · rw [hg] at h
            have hk := hfr k hg
            have hfk : fresh = k := by
              injection h
            omega
      · intro hcle
        rw [hcl] at hcle
        exact absurd hcle.symm hc

/-- **C7** witness: the invariants and the equivalence at a concrete
continuing pinch (held state id 5, fresh counter 6, frame at t = 1000150):
the classification is unchanged, so the id is carried unchanged onto the
emitted event. -/
theorem C7_witness :
    (heldPinchState.gestureId = none ↔ heldPinchState.lastGesture = none) ∧
    (∀ k, heldPinchState.gestureId = some k → k < 6) ∧
    (let r := stepHand defaultIALConfig 1000150 6 (pinchFrame 1000150) heldPinchState
     let cl := (detectGesture (pinchFrame 1000150).landmarks
        (kinUpdate defaultIALConfig (palmCenter (pinchFrame 1000150).landmarks)
          heldPinchState).velocity).map DetectedGesture.type
     (¬ r.state.gestureId = heldPinchState.gestureId ↔
        ¬ cl = heldPinchState.lastGesture) ∧
     (cl = heldPinchState.lastGesture →
        ∀ ev, r.event = some ev → ev.id = heldPinchState.gestureId)) :=
  ⟨by simp [heldPinchState],
   by intro k hk; simp [heldPinchState] at hk; omega,
   C7_identity_change defaultIALConfig 1000150 6 (pinchFrame 1000150) heldPinchState
     (by simp [heldPinchState])
     (by intro k hk; simp [heldPinchState] at hk; omega)⟩

/-- **C8** (corrected), counterexample.  On a mapper whose pinch mapping
explicitly configures `confidenceThreshold: 0` and an event of confidence
0.5: the spec's nullish-coalescing reading (`specConfidencePolicy`) admits
the event, but the source computes the threshold with JS `||`, for which a
configured `0` is falsy, so the global default 0.8 applies and the source
policy (`confidencePolicy`) rejects the event — the claim's zero-threshold
consequence fails. -/
theorem C8_counterexample :
    specConfidencePolicy zeroThresholdMapper lowConfEvent = true ∧
    confidencePolicy zeroThresholdMapper lowConfEvent = false := by
  constructor
  · simp only [specConfidencePolicy, zeroThresholdMapper, lowConfEvent, alistLookup,
      if_pos, decide_eq_true_eq]
    norm_num
  · simp only [confidencePolicy, zeroThresholdMapper, lowConfEvent, alistLookup,
      decide_eq_false_iff_not]
    norm_num

/-- **C8** (corrected), amended claim.  The default confidence policy
passes iff `event.confidence ≥` the mapping's configured threshold when it
is present AND non-zero, and otherwise the global default threshold: a
configured threshold of `0` does not stand, it falls back to the global
default (JS `||` semantics, not `??`). -/
theorem C8_amended (s : MapperState) (e : GestureEvent) (m : GestureMapping)
    (h : alistLookup s.mappings e.type = some m) :
    (confidencePolicy s e = true ↔
      e.confidence ≥ (match m.confidenceThreshold with
        | some t => if t = 0 then s.defaultConfidenceThreshold else t
        | none => s.defaultConfidenceThreshold)) := by
  rcases hmt : m.confidenceThreshold with _ | t <;>
    simp [confidencePolicy, h, hmt]

/-- **C8** witness: the amended rule at the default mapper's pinch mapping
(no configured threshold) and a 0.9-confidence pinch event: the policy
passes and the global default 0.8 is the effective threshold. -/
theorem C8_witness :
    alistLookup initMapper.mappings sampleEvent.type =
      some ⟨.pinch, "drag", true, false, some 80, none⟩ ∧
    (confidencePolicy initMapper sampleEvent = true ↔
      sampleEvent.confidence ≥
        (match (⟨.pinch, "drag", true, false, some 80, none⟩ : GestureMapping).confidenceThreshold with
          | some t => if t = 0 then initMapper.defaultConfidenceThreshold else t
          | none => initMapper.defaultConfidenceThreshold)) :=
  ⟨by decide,
   C8_amended initMapper sampleEvent ⟨.pinch, "drag", true, false, some 80, none⟩ (by decide)⟩

/-- **C10** (confirmed).  `processGesture` evaluates every policy with no
short-circuit, so when the rate-limit policy's own 200 ms gap check passes
it records `now` even though the confidence policy rejects the event and
nothing is dispatched; a same-type event arriving within 200 ms afterwards
is then rejected by the rate-limit policy, hence not dispatched. -/
theorem C10_rate_limit_bookkeeping (now now2 : Int) (s : MapperState)
    (e e2 : GestureEvent) (m : GestureMapping)
    (hm : alistLookup s.mappings e.type = some m)
    (hc : confidencePolicy s e = false)
    (hg : 200 ≤ now - (alistLookup s.lastActionTimes e.type).getD 0)
    (ht : e2.type = e.type) (hn : now2 - now < 200) :
    (processGesture now s e).dispatched = none ∧
    alistLookup (processGesture now s e).mapper.lastActionTimes e.type = some now ∧
    (rateLimitPolicy now2 (processGesture now s e).mapper.lastActionTimes e2).1 = false ∧
    (processGesture now2 (processGesture now s e).mapper e2).dispatched = none := by
  have hrl : rateLimitPolicy now s.lastActionTimes e =
      (true, alistInsert s.lastActionTimes e.type now) := by
    simp [rateLimitPolicy, hg]
  have hp1 : processGesture now s e =
      ⟨⟨s.mappings, alistInsert s.lastActionTimes e.type now,
        s.defaultConfidenceThreshold⟩, none⟩ := by
    simp [processGesture, hm, hrl, hc]
  have hlook : alistLookup (alistInsert s.lastActionTimes e.type now) e2.type = some now := by
    rw [ht]
    exact alistLookup_insert_self _ _ _
  have hrl2 : rateLimitPolicy now2 (alistInsert s.lastActionTimes e.type now) e2 =
      (false, alistInsert s.lastActionTimes e.type now) := by
    simp only [rateLimitPolicy, hlook, Option.getD_some]
    rw [if_neg (by omega)]
  have hm2 : alistLookup s.mappings e2.type = some m := by
    rw [ht]
    exact hm
  refine ⟨by simp [hp1], by simp [hp1, alistLookup_insert_self], by simp [hp1, hrl2], ?_⟩
  rw [hp1]
  simp [processGesture, hm2, hrl2]

/-- **C10** witness: on the default mapper, a 0.5-confidence pinch event at
t = 1000 is rejected by the confidence policy yet records the rate-limit
timestamp, and a 0.9-confidence pinch event at t = 1100 is then
rate-limited. -/
theorem C10_witness :
    alistLookup initMapper.mappings lowConfEvent.type =
      some ⟨.pinch, "drag", true, false, some 80, none⟩ ∧
    confidencePolicy initMapper lowConfEvent = false ∧
    200 ≤ 1000 - (alistLookup initMapper.lastActionTimes lowConfEvent.type).getD 0 ∧
    sampleEvent.type = lowConfEvent.type ∧
    (1100 : Int) - 1000 < 200 ∧
    ((processGesture 1000 initMapper lowConfEvent).dispatched = none ∧
     alistLookup (processGesture 1000 initMapper lowConfEvent).mapper.lastActionTimes
       lowConfEvent.type = some 1000 ∧
     (rateLimitPolicy 1100 (processGesture 1000 initMapper lowConfEvent).mapper.lastActionTimes
       sampleEvent).1 = false ∧
     (processGesture 1100 (processGesture 1000 initMapper lowConfEvent).mapper
       sampleEvent).dispatched = none) :=
  ⟨by decide,
   by norm_num +decide [confidencePolicy, initMapper, defaultMappings, lowConfEvent,
        alistLookup],
   by decide, by decide, by decide,
   C10_rate_limit_bookkeeping 1000 1100 initMapper lowConfEvent sampleEvent
     ⟨.pinch, "drag", true, false, some 80, none⟩ (by decide)
     (by norm_num +decide [confidencePolicy, initMapper, defaultMappings, lowConfEvent,
        alistLookup])
     (by decide) (by decide) (by decide)⟩

/-- **C5** (corrected), counterexample.  A continuing drag of session 7 on
window `"w"` sitting at the left screen edge: two continuation events move
the cursor from screen x = 50 to x = 40, but both target positions fall
below the clamp floor of `updateWindowPosition`, so the window's x stays at
0 — the position delta (0) differs from the cursor delta (−10), refuting
the unqualified anchor-offset identity. -/
theorem C5_counterexample :
    (let r1 := handleDragGesture dragDims edgeStore edgeDrag edgeEv1
     let r2 := handleDragGesture dragDims r1.store r1.drag edgeEv2
     ((alistLookup r2.store.windows "w").getD ⟨⟨0, 0⟩⟩).position.x -
        ((alistLookup r1.store.windows "w").getD ⟨⟨0, 0⟩⟩).position.x ≠
      edgeEv2.normalizedPosition.x * dragDims.x -
        edgeEv1.normalizedPosition.x * dragDims.x) := by
  norm_num +decide [handleDragGesture, updateWindowPosition, alistLookup, alistInsert,
    dragDims, edgeStore, edgeDrag, edgeEv1, edgeEv2]

/-- **C5** (corrected), amended claim.  During a continuing drag session the
session state — in particular the anchor offset — is unchanged by every
continuation event, and the window-position delta between two consecutive
continuation events equals the cursor's screen delta PROVIDED both computed
target positions lie inside the clamp bounds of `updateWindowPosition`
(x within `[0, width − 200]`, y within `[0, height − 50]`); at the screen
edge the clamp breaks the exact identity. -/
theorem C5_amended (dims : Vec2) (store : Store) (ds : DragState)
    (e1 e2 : GestureEvent) (w : String) (win : WOSWindow)
    (hd : ds.isDragging = true) (hw : ds.windowId = some w)
    (h1 : ds.gestureSequenceId = e1.id) (h2 : ds.gestureSequenceId = e2.id)
    (hwin : alistLookup store.windows w = some win)
    (hb1x : 0 ≤ e1.normalizedPosition.x * dims.x - ds.offset.x)
    (hb1x' : e1.normalizedPosition.x * dims.x - ds.offset.x ≤ dims.x - 200)
    (hb1y : 0 ≤ e1.normalizedPosition.y * dims.y - ds.offset.y)
    (hb1y' : e1.normalizedPosition.y * dims.y - ds.offset.y ≤ dims.y - 50)
    (hb2x : 0 ≤ e2.normalizedPosition.x * dims.x - ds.offset.x)
    (hb2x' : e2.normalizedPosition.x * dims.x - ds.offset.x ≤ dims.x - 200)
    (hb2y : 0 ≤ e2.normalizedPosition.y * dims.y - ds.offset.y)
    (hb2y' : e2.normalizedPosition.y * dims.y - ds.offset.y ≤ dims.y - 50) :
    (let r1 := handleDragGesture dims store ds e1
     let r2 := handleDragGesture dims r1.store r1.drag e2
     r1.drag = ds ∧ r2.drag = ds ∧
     ∃ p1 p2 : WOSWindow,
       alistLookup r1.store.windows w = some p1 ∧
       alistLookup r2.store.windows w = some p2 ∧
       p2.position.x - p1.position.x =
         e2.normalizedPosition.x * dims.x - e1.normalizedPosition.x * dims.x ∧
       p2.position.y - p1.position.y =
         e2.normalizedPosition.y * dims.y - e1.normalizedPosition.y * dims.y) := by
  intro r1 r2
  have er1 : r1 = handleDragGesture dims store ds e1 := rfl
  rw [handleDragGesture_continuing dims store ds e1 w hd hw h1,
    updateWindowPosition_inbounds dims store w win
      ⟨e1.normalizedPosition.x * dims.x - ds.offset.x,
       e1.normalizedPosition.y * dims.y - ds.offset.y⟩ hwin hb1x hb1x' hb1y hb1y'] at er1
  have hdrag1 : r1.drag = ds := by rw [er1]
  have hstore1 : r1.store =
      ⟨alistInsert store.windows w
        ⟨⟨e1.normalizedPosition.x * dims.x - ds.offset.x,
          e1.normalizedPosition.y * dims.y - ds.offset.y⟩⟩, store.focusedWindowId⟩ := by
    rw [er1]
  have hwin1 : alistLookup r1.store.windows w =
      some ⟨⟨e1.normalizedPosition.x * dims.x - ds.offset.x,
             e1.normalizedPosition.y * dims.y - ds.offset.y⟩⟩ := by
    rw [hstore1]
    exact alistLookup_insert_self _ _ _
  have er2 : r2 = handleDragGesture dims r1.store r1.drag e2 := rfl
  rw [hdrag1, handleDragGesture_continuing dims r1.store ds e2 w hd hw h2,
    updateWindowPosition_inbounds dims r1.store w _
      ⟨e2.normalizedPosition.x * dims.x - ds.offset.x,
       e2.normalizedPosition.y * dims.y - ds.offset.y⟩ hwin1 hb2x hb2x' hb2y hb2y'] at er2
  have hdrag2 : r2.drag = ds := by rw [er2]
  have hwin2 : alistLookup r2.store.windows w =
      some ⟨⟨e2.normalizedPosition.x * dims.x - ds.offset.x,
             e2.normalizedPosition.y * dims.y - ds.offset.y⟩⟩ := by
    rw [er2]
    exact alistLookup_insert_self _ _ _
  refine ⟨hdrag1, hdrag2, _, _, hwin1, hwin2, by ring, by ring⟩

/-- **C5** witness: the amended identity at a concrete mid-screen drag —
session 9 on window `"w"`, cursor moving from (500, 500) to (600, 600),
both targets inside the clamp bounds; the window delta equals the cursor
delta (100, 100) and the session state is untouched. -/
theorem C5_witness :
    midDrag.isDragging = true ∧
    midDrag.windowId = some "w" ∧
    midDrag.gestureSequenceId = midEv1.id ∧
    midDrag.gestureSequenceId = midEv2.id ∧
    alistLookup midStore.windows "w" = some ⟨⟨100, 100⟩⟩ ∧
    (0 ≤ midEv1.normalizedPosition.x * dragDims.x - midDrag.offset.x ∧
     midEv1.normalizedPosition.x * dragDims.x - midDrag.offset.x ≤ dragDims.x - 200 ∧
     0 ≤ midEv2.normalizedPosition.x * dragDims.x - midDrag.offset.x ∧
     midEv2.normalizedPosition.x * dragDims.x - midDrag.offset.x ≤ dragDims.x - 200) ∧
    (let r1 := handleDragGesture dragDims midStore midDrag midEv1
     let r2 := handleDragGesture dragDims r1.store r1.drag midEv2
     r1.drag = midDrag ∧ r2.drag = midDrag ∧
     ∃ p1 p2 : WOSWindow,
       alistLookup r1.store.windows "w" = some p1 ∧
       alistLookup r2.store.windows "w" = some p2 ∧
       p2.position.x - p1.position.x =
         midEv2.normalizedPosition.x * dragDims.x - midEv1.normalizedPosition.x * dragDims.x ∧
       p2.position.y - p1.position.y =
         midEv2.normalizedPosition.y * dragDims.y - midEv1.normalizedPosition.y * dragDims.y) :=
  ⟨by decide, by decide, by decide, by decide, by decide,
   ⟨by norm_num [midEv1, dragDims, midDrag],
    by norm_num [midEv1, dragDims, midDrag],
    by norm_num [midEv2, dragDims, midDrag],
    by norm_num [midEv2, dragDims, midDrag]⟩,
   C5_amended dragDims midStore midDrag midEv1 midEv2 "w" ⟨⟨100, 100⟩⟩
     (by decide) (by decide) (by decide) (by decide) (by decide)
     (by norm_num [midEv1, dragDims, midDrag])
     (by norm_num [midEv1, dragDims, midDrag])
     (by norm_num [midEv1, dragDims, midDrag])
     (by norm_num [midEv1, dragDims, midDrag])
     (by norm_num [midEv2, dragDims, midDrag])
     (by norm_num [midEv2, dragDims, midDrag])
     (by norm_num [midEv2, dragDims, midDrag])
     (by norm_num [midEv2, dragDims, midDrag])⟩

/-- **C6** (corrected), counterexample.  A drag event with a new sequence
id arriving while no window is focused: contrary to the claim, the old
session is NOT superseded — the returned drag state is the stale session
unchanged, still carrying the old identity id rather than the incoming
event's id. -/
theorem C6_counterexample :
    (handleDragGesture dragDims noFocusStore staleDrag newSeqEvent).drag = staleDrag ∧
    ¬ (handleDragGesture dragDims noFocusStore staleDrag newSeqEvent).drag.gestureSequenceId
        = newSeqEvent.id ∧
    staleDrag.isDragging = true := by
  have h : (handleDragGesture dragDims noFocusStore staleDrag newSeqEvent).drag = staleDrag := by
    norm_num +decide [handleDragGesture, noFocusStore, staleDrag, newSeqEvent, dragDims]
  exact ⟨h, by rw [h]; decide, by decide⟩

/-- **C6** (corrected), amended claim.  Provided the store resolves a
focused window, a drag event whose sequence id differs from the active
session's silently supersedes it (no merge, no error): the single drag-state
record — so at most one session is ever active — becomes a fresh session on
the focused window, carrying the incoming event's id and an anchor offset
freshly computed from that window's position; when no focused window
resolves, the old session is left untouched instead. -/
theorem C6_amended (dims : Vec2) (store : Store) (ds : DragState) (e : GestureEvent)
    (w : String) (win : WOSWindow)
    (hneq : ¬ ds.gestureSequenceId = e.id)
    (hf : store.focusedWindowId = some w)
    (hwin : alistLookup store.windows w = some win) :
    handleDragGesture dims store ds e =
      ⟨⟨true, some w, ⟨e.normalizedPosition.x * dims.x, e.normalizedPosition.y * dims.y⟩,
        ⟨e.normalizedPosition.x * dims.x - win.position.x,
         e.normalizedPosition.y * dims.y - win.position.y⟩, e.id⟩, store⟩ := by
  simp [handleDragGesture, hneq, hf, hwin]

/-- **C6** witness: the amended supersession at a concrete input — stale
session id 1, incoming event id 2, window `"w"` focused at (100, 100): the
result is a fresh session anchored to `"w"` carrying id 2. -/
theorem C6_witness :
    ¬ staleDrag.gestureSequenceId = newSeqEvent.id ∧
    midStore.focusedWindowId = some "w" ∧
    alistLookup midStore.windows "w" = some ⟨⟨100, 100⟩⟩ ∧
    handleDragGesture dragDims midStore staleDrag newSeqEvent =
      ⟨⟨true, some "w",
        ⟨newSeqEvent.normalizedPosition.x * dragDims.x,
         newSeqEvent.normalizedPosition.y * dragDims.y⟩,
        ⟨newSeqEvent.normalizedPosition.x * dragDims.x -
           (⟨⟨100, 100⟩⟩ : WOSWindow).position.x,
         newSeqEvent.normalizedPosition.y * dragDims.y -
           (⟨⟨100, 100⟩⟩ : WOSWindow).position.y⟩, newSeqEvent.id⟩, midStore⟩ :=
  ⟨by decide, by decide, by decide,
   C6_amended dragDims midStore staleDrag newSeqEvent "w" ⟨⟨100, 100⟩⟩
     (by decide) (by decide) (by decide)⟩

end WebOS
